import Mathlib

/-!
# Verification of the Work Tracker persistence layer (src/Stream.py)

A shallow embedding of the single-file Streamlit + sqlite3 application.
The working directory is modelled as an association list from filenames to
database files; a database file holds an optional `work_entries` table
(`sqlite3.connect` creates the bare file, `CREATE TABLE IF NOT EXISTS`
creates the table); the table holds its rows together with the sqlite
AUTOINCREMENT sequence (the `sqlite_sequence` counter, which records the
largest rowid ever assigned and is not reset by `DELETE FROM`).

SQL `TEXT` is modelled as `String`, `REAL` (a Python float holding the
submitted hours) as `ℚ`, and `datetime.now().strftime("%Y-%m-%d")` as an
ambient `today : String` parameter.  Fallible sqlite statements return
`Except String`.
-/

set_option autoImplicit false

namespace WorkTracker

/-- One row of the `work_entries` table (schema created by `init_db`,
Stream.py lines 33-43).  `id INTEGER PRIMARY KEY AUTOINCREMENT`,
`date TEXT`, five `TEXT` fields, `hours_worked REAL`. -/
structure Entry where
  id : Nat
  date : String
  client_name : String
  client_location : String
  work_of_visit : String
  requirements : String
  note : String
  hours_worked : ℚ
deriving Repr, DecidableEq

/-- The `work_entries` table of one database file: its rows in rowid
(insertion) order, plus the AUTOINCREMENT sequence value — the largest id
ever assigned in this table (sqlite keeps it in `sqlite_sequence`; a
`DELETE FROM work_entries` leaves it untouched). -/
structure Table where
  rows : List Entry
  seq : Nat
deriving Repr, DecidableEq

/-- A database file on disk.  `sqlite3.connect` creates the file with no
tables at all, so the `work_entries` table is optional; sqlite forbids two
tables of the same name, so one optional table is exact. -/
structure DBFile where
  table : Option Table
deriving Repr, DecidableEq

/-- The working directory: filenames associated to database files. -/
abbrev FS := List (String × DBFile)

/-- Look a filename up in the working directory. -/
def fsLookup : FS → String → Option DBFile
  | [], _ => none
  | (k, v) :: rest, n => if k = n then some v else fsLookup rest n

/-- Write a file under a name: replace the first binding of that name, or
append a fresh one. -/
def fsSet : FS → String → DBFile → FS
  | [], n, f => [(n, f)]
  | (k, v) :: rest, n, f => if k = n then (n, f) :: rest else (k, v) :: fsSet rest n f

/-- Remove a file (`os.remove` / the source side of `os.rename`). -/
def fsRemove : FS → String → FS
  | [], _ => []
  | (k, v) :: rest, n => if k = n then fsRemove rest n else (k, v) :: fsRemove rest n

/-- `name.endswith(".db")` from the source: the character list ends with
`.db`. -/
def hasDbExt (s : String) : Bool :=
  ".db".data.isSuffixOf s.data

/-- The extension normalization both `rename_database` (lines 18-19),
`init_db` (lines 29-30) and the create handler (lines 93-94) perform:
`if not name.endswith('.db'): name = f"{name}.db"`. -/
def withDbExt (name : String) : String :=
  if hasDbExt name then name else name ++ ".db"

/-- `list_databases` (Stream.py lines 13-14): every file in the working
directory whose name ends in `.db`. -/
def list_databases (fs : FS) : List String :=
  (fs.map Prod.fst).filter (fun n => hasDbExt n)

/-- `sqlite3.connect(db_name)`: opens the database file, creating an empty
one (no tables) if it does not exist yet. -/
def connectDB (fs : FS) (name : String) : FS :=
  match fsLookup fs name with
  | some _ => fs
  | none => fsSet fs name ⟨none⟩

/-- `init_db` (Stream.py lines 28-45): normalize the name, connect, and
`CREATE TABLE IF NOT EXISTS work_entries (...)` — a fresh empty table when
absent, a no-op when present. -/
def init_db (fs : FS) (db_name : String) : FS :=
  let n := withDbExt db_name
  let fs1 := connectDB fs n
  match fsLookup fs1 n with
  | some file =>
    match file.table with
    | some _ => fs1
    | none => fsSet fs1 n ⟨some ⟨[], 0⟩⟩
  | none => fs1

/-- Largest rowid currently present in the table (0 when empty). -/
def maxRowId (rows : List Entry) : Nat :=
  rows.foldr (fun e m => max e.id m) 0

/-- `add_entry` (Stream.py lines 48-56): stamp `today`, connect, and
`INSERT INTO work_entries (date, ..., hours_worked) VALUES (...)`.
With `INTEGER PRIMARY KEY AUTOINCREMENT` sqlite assigns the new row an id
one larger than the maximum of the `sqlite_sequence` value and the largest
existing rowid, and advances the sequence to that id.  The statement fails
(`no such table`) when the `work_entries` table does not exist. -/
def add_entry (today : String) (fs : FS) (db_name client_name client_location work_of_visit requirements note : String) (hours_worked : ℚ) : Except String FS :=
  let date := today
  let fs1 := connectDB fs db_name
  match fsLookup fs1 db_name with
  | some file =>
    match file.table with
    | some t =>
      let newId := max t.seq (maxRowId t.rows) + 1
      .ok (fsSet fs1 db_name ⟨some ⟨t.rows ++ [⟨newId, date, client_name, client_location, work_of_visit, requirements, note, hours_worked⟩], newId⟩⟩)
    | none => .error "no such table: work_entries"
  | none => .error "no such table: work_entries"

/-- `load_data` (Stream.py lines 58-62): connect and
`SELECT * FROM work_entries` via pandas; the resulting frame holds the
table's rows in rowid order (its columns are the fixed schema's eight
column names).  Fails when the table does not exist; the `connect` still
creates the bare file, hence the returned directory. -/
def load_data (fs : FS) (db_name : String) : Except String (List Entry) × FS :=
  let fs1 := connectDB fs db_name
  match fsLookup fs1 db_name with
  | some file =>
    match file.table with
    | some t => (.ok t.rows, fs1)
    | none => (.error "no such table: work_entries", fs1)
  | none => (.error "no such table: work_entries", fs1)

/-- `clear_data` (Stream.py lines 64-69): connect and
`DELETE FROM work_entries`.  Removes every row but neither the file, nor
the table, nor the AUTOINCREMENT sequence.  Fails when the table does not
exist. -/
def clear_data (fs : FS) (db_name : String) : Except String Unit × FS :=
  let fs1 := connectDB fs db_name
  match fsLookup fs1 db_name with
  | some file =>
    match file.table with
    | some t => (.ok (), fsSet fs1 db_name ⟨some ⟨[], t.seq⟩⟩)
    | none => (.error "no such table: work_entries", fs1)
  | none => (.error "no such table: work_entries", fs1)

/-- A spreadsheet cell, as `DataFrame.to_excel` types it: the ids are
integers, the six text columns strings, the hours a real. -/
inductive Cell where
  | str (s : String)
  | int (n : Nat)
  | real (q : ℚ)
deriving Repr, DecidableEq

/-- The column names of the `work_entries` schema, which `SELECT *` hands
to the DataFrame and `to_excel` writes as the header row. -/
def work_columns : List String :=
  ["id", "date", "client_name", "client_location", "work_of_visit", "requirements", "note", "hours_worked"]

/-- One spreadsheet data row per entry, cells in schema column order. -/
def entryRow (e : Entry) : List Cell :=
  [.int e.id, .str e.date, .str e.client_name, .str e.client_location, .str e.work_of_visit, .str e.requirements, .str e.note, .real e.hours_worked]

/-- `export_data` (Stream.py lines 71-75): serialize the loaded frame into
an in-memory spreadsheet buffer (`BytesIO` + `to_excel(index=False)`): a
header row holding the column names, then one row per entry.  The body
touches only the fresh local buffer — no database file is read or
written — so it is a function of the frame alone. -/
def export_data (rows : List Entry) : List (List Cell) :=
  (work_columns.map Cell.str) :: rows.map entryRow

/-- The export step of the view section (Stream.py line 181): calling
`export_data(data)` leaves the working directory untouched and yields the
serialized buffer. -/
def export_step (fs : FS) (rows : List Entry) : FS × List (List Cell) :=
  (fs, export_data rows)

/-- `os.rename(old, new)`: fails when the source does not exist
(`FileNotFoundError`) or when the destination already exists
(`FileExistsError`, the documented behaviour on Windows; POSIX would
instead replace the destination); otherwise the file changes name. -/
def osRename (fs : FS) (old_name new_name : String) : Except String FS :=
  match fsLookup fs old_name with
  | none => .error "FileNotFoundError"
  | some f =>
    match fsLookup fs new_name with
    | some _ => .error "FileExistsError"
    | none => .ok (fsSet (fsRemove fs old_name) new_name f)

/-- `rename_database` (Stream.py lines 17-25): normalize the new name,
try `os.rename`; on any exception report the error (`st.error`) and
return `False` with the directory unchanged, otherwise return `True`. -/
def rename_database (fs : FS) (old_name new_name : String) : Bool × FS :=
  let n := withDbExt new_name
  match osRename fs old_name n with
  | .ok fs1 => (true, fs1)
  | .error _ => (false, fs)

/-- Outcome surfaced in the sidebar by the create handler. -/
inductive CreateResult where
  | created
  | alreadyExists
  | emptyName
deriving Repr, DecidableEq

/-- The "Create Database" button handler (Stream.py lines 91-103): when
the typed name is non-empty, normalize it; when it is not among the known
databases (`st.session_state.databases`), run `init_db` and refresh the
list, otherwise warn "Database already exists!" and change nothing. -/
def create_database_handler (fs : FS) (dbs : List String) (new_db_name : String) : CreateResult × FS × List String :=
  if new_db_name ≠ "" then
    let n := withDbExt new_db_name
    if n ∈ dbs then
      (.alreadyExists, fs, dbs)
    else
      let fs1 := init_db fs n
      (.created, fs1, list_databases fs1)
  else
    (.emptyName, fs, dbs)

/-- Outcome surfaced by the entry form. -/
inductive SubmitResult where
  | success
  | validationError
deriving Repr, DecidableEq

/-- The `entry_form` submit handler (Stream.py lines 168-173): when all
four required text fields are truthy (non-empty) and `hours_worked > 0`,
call `add_entry` and report success; otherwise report
"All fields are required!" and write nothing.  A failure inside
`add_entry` propagates as an uncaught exception. -/
def entry_form_submit (today : String) (fs : FS) (selected_db client_name client_location work_of_visit requirements note : String) (hours_worked : ℚ) : Except String (SubmitResult × FS) :=
  if client_name ≠ "" ∧ client_location ≠ "" ∧ work_of_visit ≠ "" ∧ requirements ≠ "" ∧ hours_worked > 0 then
    match add_entry today fs selected_db client_name client_location work_of_visit requirements note hours_worked with
    | .ok fs1 => .ok (.success, fs1)
    | .error e => .error e
  else
    .ok (.validationError, fs)

/-- One Streamlit script run is triggered by at most one widget event, and
`st.button` returns `True` exactly in the run triggered by its own click:
the run's trigger is the (optional) label of the clicked button. -/
def button_pressed (clicked : Option String) (label : String) : Bool :=
  clicked = some label

/-- The "Delete Current Database" handler (Stream.py lines 131-139): the
`os.remove` sits inside `if st.sidebar.button("Confirm Delete")`, itself
nested inside `if st.sidebar.button("Delete Current Database")`.  This
function is `true` exactly when the `os.remove` line runs in the script
run triggered by `clicked`. -/
def delete_confirm_fires (clicked : Option String) : Bool :=
  if button_pressed clicked "Delete Current Database" then
    button_pressed clicked "Confirm Delete"
  else
    false

/-- A batch of form submissions, to state the insert/read/export
round-trip over a whole sequence. -/
structure Submission where
  client_name : String
  client_location : String
  work_of_visit : String
  requirements : String
  note : String
  hours_worked : ℚ
deriving Repr, DecidableEq

/-- Run `add_entry` for each submission in turn (the repeated use of the
entry form), stopping at the first sqlite error. -/
def add_all (today db : String) : List Submission → FS → Except String FS
  | [], fs => .ok fs
  | s :: rest, fs =>
    match add_entry today fs db s.client_name s.client_location s.work_of_visit s.requirements s.note s.hours_worked with
    | .ok fs1 => add_all today db rest fs1
    | .error e => .error e

/-- Every stored row's id is bounded by the AUTOINCREMENT sequence — the
invariant sqlite maintains for `INTEGER PRIMARY KEY AUTOINCREMENT`
(`sqlite_sequence` records the largest id ever assigned). -/
def idsBounded (t : Table) : Prop := ∀ e ∈ t.rows, e.id ≤ t.seq

/-- A sample stored entry, for concrete instantiations. -/
def sampleEntry : Entry := ⟨1, "2026-10-11", "Acme", "NYC", "Install", "Router", "", 2⟩

/-- A sample working directory holding one database whose table stores
`sampleEntry`. -/
def sampleFS : FS := [("w.db", ⟨some ⟨[sampleEntry], 1⟩⟩)]

/-- A sample working directory holding one database with an empty table. -/
def emptyFS : FS := [("w.db", ⟨some ⟨[], 0⟩⟩)]

/-! ## Association-list lemmas for the working directory -/

theorem fsLookup_fsSet_self (fs : FS) (n : String) (f : DBFile) :
    fsLookup (fsSet fs n f) n = some f := by
  induction fs with
  | nil => simp [fsSet, fsLookup]
  | cons p rest ih =>
    obtain ⟨k, v⟩ := p
    by_cases h : k = n <;> simp [fsSet, fsLookup, h, ih]

theorem fsLookup_fsSet_ne (fs : FS) (n k : String) (f : DBFile) (h : k ≠ n) :
    fsLookup (fsSet fs n f) k = fsLookup fs k := by
  induction fs with
  | nil => simp [fsSet, fsLookup, Ne.symm h]
  | cons p rest ih =>
    obtain ⟨k', v⟩ := p
    by_cases h' : k' = n
    · subst h'
      simp [fsSet, fsLookup, Ne.symm h]
    · simp [fsSet, fsLookup, h', ih]

theorem fsLookup_fsRemove_self (fs : FS) (n : String) :
    fsLookup (fsRemove fs n) n = none := by
  induction fs with
  | nil => simp [fsRemove, fsLookup]
  | cons p rest ih =>
    obtain ⟨k, v⟩ := p
    by_cases h : k = n <;> simp [fsRemove, fsLookup, h, ih]

theorem fsLookup_eq_none_iff (fs : FS) (k : String) :
    fsLookup fs k = none ↔ k ∉ fs.map Prod.fst := by
  induction fs with
  | nil => simp [fsLookup]
  | cons p rest ih =>
    obtain ⟨k', v⟩ := p
    by_cases h : k' = k
    · simp [fsLookup, h]
    · simp [fsLookup, h, ih, Ne.symm h]

theorem mem_list_databases_iff (fs : FS) (k : String) :
    k ∈ list_databases fs ↔ k ∈ fs.map Prod.fst ∧ hasDbExt k = true := by
  simp [list_databases, List.mem_filter]

/-! ## Behaviour of the sqlite-level operations on a store whose
`work_entries` table exists -/

theorem connectDB_of_mem (fs : FS) (n : String) (f : DBFile)
    (h : fsLookup fs n = some f) : connectDB fs n = fs := by
  simp [connectDB, h]

theorem add_entry_of_table (today : String) (fs : FS)
    (db cn cl wv rq nt : String) (hw : ℚ) (file : DBFile) (t : Table)
    (hfile : fsLookup fs db = some file) (htab : file.table = some t) :
    add_entry today fs db cn cl wv rq nt hw =
      .ok (fsSet fs db ⟨some ⟨t.rows ++
        [⟨max t.seq (maxRowId t.rows) + 1, today, cn, cl, wv, rq, nt, hw⟩],
        max t.seq (maxRowId t.rows) + 1⟩⟩) := by
  simp [add_entry, connectDB, hfile, htab]

theorem load_data_of_table (fs : FS) (db : String) (file : DBFile) (t : Table)
    (hfile : fsLookup fs db = some file) (htab : file.table = some t) :
    load_data fs db = (.ok t.rows, fs) := by
  simp [load_data, connectDB, hfile, htab]

theorem clear_data_of_table (fs : FS) (db : String) (file : DBFile) (t : Table)
    (hfile : fsLookup fs db = some file) (htab : file.table = some t) :
    clear_data fs db = (.ok (), fsSet fs db ⟨some ⟨[], t.seq⟩⟩) := by
  simp [clear_data, connectDB, hfile, htab]

theorem init_db_of_table (fs : FS) (name : String) (file : DBFile) (t : Table)
    (hfile : fsLookup fs (withDbExt name) = some file) (htab : file.table = some t) :
    init_db fs name = fs := by
  simp [init_db, connectDB, hfile, htab]

theorem init_db_lookup (fs : FS) (name : String) :
    ∃ t, fsLookup (init_db fs name) (withDbExt name) = some ⟨some t⟩ := by
  unfold init_db
  cases hl : fsLookup fs (withDbExt name) with
  | none =>
    refine ⟨⟨[], 0⟩, ?_⟩
    simp [connectDB, hl, fsLookup_fsSet_self]
  | some file =>
    cases file with
    | mk tab =>
      cases htab : tab with
      | none =>
        refine ⟨⟨[], 0⟩, ?_⟩
        simp [connectDB, hl, htab, fsLookup_fsSet_self]
      | some t =>
        refine ⟨t, ?_⟩
        simp [connectDB, hl, htab]

theorem hasDbExt_withDbExt (s : String) : hasDbExt (withDbExt s) = true := by
  by_cases h : hasDbExt s
  · rw [withDbExt, if_pos h]
    exact h
  · rw [withDbExt, if_neg h, hasDbExt, String.data_append]
    simp [List.isSuffixOf]

/-! ## The claims -/

/-- C1: for every submission in which the four required text fields are
non-empty and the hours are positive, the submit handler runs `add_entry`
successfully, and `load_data` on the same database file afterwards returns
exactly one entry more than before — the new entry carrying the submitted
`client_name`, `client_location`, `work_of_visit`, `requirements`, `note`
and `hours_worked`, and the current date. -/
theorem C1_valid_submission_adds_entry (today : String) (fs : FS)
    (db cn cl wv rq nt : String) (hw : ℚ) (file : DBFile) (t : Table)
    (hfile : fsLookup fs db = some file) (htab : file.table = some t)
    (hcn : cn ≠ "") (hcl : cl ≠ "") (hwv : wv ≠ "") (hrq : rq ≠ "")
    (hhw : hw > 0) :
    ∃ fs2 e, entry_form_submit today fs db cn cl wv rq nt hw = .ok (.success, fs2) ∧
      (load_data fs db).1 = .ok t.rows ∧
      (load_data fs2 db).1 = .ok (t.rows ++ [e]) ∧
      (t.rows ++ [e]).length = t.rows.length + 1 ∧
      e.client_name = cn ∧ e.client_location = cl ∧ e.work_of_visit = wv ∧
      e.requirements = rq ∧ e.note = nt ∧ e.hours_worked = hw ∧ e.date = today := by
  have hcond : cn ≠ "" ∧ cl ≠ "" ∧ wv ≠ "" ∧ rq ≠ "" ∧ hw > 0 :=
    ⟨hcn, hcl, hwv, hrq, hhw⟩
  refine ⟨fsSet fs db ⟨some ⟨t.rows ++
      [⟨max t.seq (maxRowId t.rows) + 1, today, cn, cl, wv, rq, nt, hw⟩],
      max t.seq (maxRowId t.rows) + 1⟩⟩,
    ⟨max t.seq (maxRowId t.rows) + 1, today, cn, cl, wv, rq, nt, hw⟩,
    ?_, ?_, ?_, by simp, rfl, rfl, rfl, rfl, rfl, rfl, rfl⟩
  · rw [entry_form_submit, if_pos hcond,
      add_entry_of_table today fs db cn cl wv rq nt hw file t hfile htab]
  · rw [load_data_of_table fs db file t hfile htab]
  · rw [load_data_of_table _ db _ _ (fsLookup_fsSet_self fs db _) rfl]

/-- C2: for every submission in which one of the four required text fields
is empty or the hours are not positive, the submit handler surfaces the
validation error and leaves the working directory — hence the result of
any later `load_data` — unchanged. -/
theorem C2_invalid_submission_rejected (today : String) (fs : FS)
    (db cn cl wv rq nt : String) (hw : ℚ)
    (h : cn = "" ∨ cl = "" ∨ wv = "" ∨ rq = "" ∨ hw ≤ 0) :
    entry_form_submit today fs db cn cl wv rq nt hw = .ok (.validationError, fs) := by
  have hcond : ¬(cn ≠ "" ∧ cl ≠ "" ∧ wv ≠ "" ∧ rq ≠ "" ∧ hw > 0) := by
    rcases h with h | h | h | h | h
    · exact fun hc => hc.1 h
    · exact fun hc => hc.2.1 h
    · exact fun hc => hc.2.2.1 h
    · exact fun hc => hc.2.2.2.1 h
    · exact fun hc => absurd hc.2.2.2.2 (not_lt.mpr h)
  rw [entry_form_submit, if_neg hcond]

/-- C4: pressing "Create Database" with a non-empty name that, after the
`.db` normalization, is already among the known databases fails with the
"already exists" warning and leaves the working directory and the catalog
list unchanged — in particular the contents of the existing storage unit
are untouched. -/
theorem C4_create_existing_fails (fs : FS) (dbs : List String) (name : String)
    (hne : name ≠ "") (hmem : withDbExt name ∈ dbs) :
    create_database_handler fs dbs name = (.alreadyExists, fs, dbs) := by
  rw [create_database_handler, if_pos hne]
  simp only [hmem, if_pos]

/-- C5: `init_db` is idempotent — running it twice on the same name is the
same state as running it once — and when the file already holds a
`work_entries` table it changes nothing at all: that file keeps its exact
table (no duplicate, no lost or altered rows) and every other file is
untouched. -/
theorem C5_init_db_idempotent (fs : FS) (name : String) :
    init_db (init_db fs name) name = init_db fs name ∧
    (∀ file t, fsLookup fs (withDbExt name) = some file → file.table = some t →
      init_db fs name = fs ∧
      fsLookup (init_db fs name) (withDbExt name) = some file ∧
      (∀ k, fsLookup (init_db fs name) k = fsLookup fs k)) := by
  constructor
  · obtain ⟨t, ht⟩ := init_db_lookup fs name
    exact init_db_of_table (init_db fs name) name ⟨some t⟩ t ht rfl
  · intro file t hfile htab
    have heq := init_db_of_table fs name file t hfile htab
    exact ⟨heq, by rw [heq, hfile], fun k => by rw [heq]⟩

/-- C8: `export_data` is a deterministic pure function of the entry
collection: equal collections serialize to identical buffers, and the
export step of the view section leaves the working directory unchanged
while producing exactly `export_data` of the loaded rows. -/
theorem C8_export_deterministic_pure (fs : FS) (rows rows2 : List Entry)
    (h : rows = rows2) :
    export_data rows = export_data rows2 ∧
    (export_step fs rows).1 = fs ∧
    (export_step fs rows).2 = export_data rows := by
  subst h
  exact ⟨rfl, rfl, rfl⟩

/-- C3: `clear_data` succeeds and deletes all rows — a following
`load_data` returns the empty collection — while the database file and its
`work_entries` table still exist (only the rows are gone, the sequence and
every other file are untouched) and a subsequent `add_entry` succeeds. -/
theorem C3_clear_keeps_store_and_schema (fs : FS) (db : String)
    (file : DBFile) (t : Table)
    (hfile : fsLookup fs db = some file) (htab : file.table = some t)
    (today cn cl wv rq nt : String) (hw : ℚ) :
    (clear_data fs db).1 = .ok () ∧
    fsLookup (clear_data fs db).2 db = some ⟨some ⟨[], t.seq⟩⟩ ∧
    (load_data (clear_data fs db).2 db).1 = .ok [] ∧
    (∀ k, k ≠ db → fsLookup (clear_data fs db).2 k = fsLookup fs k) ∧
    (∃ fs3, add_entry today (clear_data fs db).2 db cn cl wv rq nt hw = .ok fs3) := by
  rw [clear_data_of_table fs db file t hfile htab]
  refine ⟨rfl, fsLookup_fsSet_self fs db _, ?_, ?_, ?_⟩
  · rw [load_data_of_table _ db _ ⟨[], t.seq⟩ (fsLookup_fsSet_self fs db _) rfl]
  · intro k hk
    exact fsLookup_fsSet_ne fs db k _ hk
  · exact ⟨_, add_entry_of_table today _ db cn cl wv rq nt hw _ ⟨[], t.seq⟩
      (fsLookup_fsSet_self fs db _) rfl⟩

/-- C6: `rename_database` appends `.db` to the new name if absent; it
returns failure with the working directory unchanged when the source file
does not exist or the normalized new name collides with an existing file,
and otherwise returns success, after which the old name is no longer
listed by `list_databases` and the new name is. -/
theorem C6_rename_database_listing (fs : FS) (old_name new_name : String) :
    (fsLookup fs old_name = none →
      rename_database fs old_name new_name = (false, fs)) ∧
    (∀ g, fsLookup fs (withDbExt new_name) = some g →
      rename_database fs old_name new_name = (false, fs)) ∧
    (∀ f, fsLookup fs old_name = some f → fsLookup fs (withDbExt new_name) = none →
      rename_database fs old_name new_name =
        (true, fsSet (fsRemove fs old_name) (withDbExt new_name) f) ∧
      withDbExt new_name ∈
        list_databases (fsSet (fsRemove fs old_name) (withDbExt new_name) f) ∧
      old_name ∉
        list_databases (fsSet (fsRemove fs old_name) (withDbExt new_name) f)) := by
  refine ⟨?_, ?_, ?_⟩
  · intro h
    simp [rename_database, osRename, h]
  · intro g hg
    cases ho : fsLookup fs old_name with
    | none => simp [rename_database, osRename, ho]
    | some f => simp [rename_database, osRename, ho, hg]
  · intro f hf hn
    have hne : old_name ≠ withDbExt new_name := by
      intro he
      rw [he, hn] at hf
      cases hf
    refine ⟨by simp [rename_database, osRename, hf, hn], ?_, ?_⟩
    · rw [mem_list_databases_iff]
      refine ⟨?_, hasDbExt_withDbExt new_name⟩
      by_contra hmem
      have hnone := (fsLookup_eq_none_iff _ _).mpr hmem
      rw [fsLookup_fsSet_self] at hnone
      cases hnone
    · rw [mem_list_databases_iff]
      rintro ⟨hmem, -⟩
      have hnone : fsLookup (fsSet (fsRemove fs old_name) (withDbExt new_name) f)
          old_name = none := by
        rw [fsLookup_fsSet_ne _ _ _ _ hne, fsLookup_fsRemove_self]
      exact (fsLookup_eq_none_iff _ _).mp hnone hmem

theorem add_all_of_table (today db : String) (subs : List Submission) :
    ∀ (fs : FS) (t : Table), fsLookup fs db = some ⟨some t⟩ →
      ∃ fs2 t2, add_all today db subs fs = .ok fs2 ∧
        fsLookup fs2 db = some ⟨some t2⟩ ∧
        t2.rows.length = t.rows.length + subs.length := by
  induction subs with
  | nil =>
    intro fs t hfs
    exact ⟨fs, t, rfl, hfs, by simp [add_all]⟩
  | cons s rest ih =>
    intro fs t hfs
    obtain ⟨fs2, t2, h1, h2, h3⟩ :=
      ih (fsSet fs db ⟨some ⟨t.rows ++
          [⟨max t.seq (maxRowId t.rows) + 1, today, s.client_name, s.client_location,
            s.work_of_visit, s.requirements, s.note, s.hours_worked⟩],
          max t.seq (maxRowId t.rows) + 1⟩⟩)
        ⟨t.rows ++ [⟨max t.seq (maxRowId t.rows) + 1, today, s.client_name,
            s.client_location, s.work_of_visit, s.requirements, s.note, s.hours_worked⟩],
          max t.seq (maxRowId t.rows) + 1⟩
        (fsLookup_fsSet_self fs db _)
    refine ⟨fs2, t2, ?_, h2, ?_⟩
    · rw [add_all, add_entry_of_table today fs db s.client_name s.client_location
        s.work_of_visit s.requirements s.note s.hours_worked ⟨some t⟩ t hfs rfl]
      exact h1
    · simp only [List.length_append, List.length_cons, List.length_nil] at h3 ⊢
      omega

/-- C7: inserting any sequence of submissions into a store whose table
exists succeeds, and exporting the collection `load_data` then returns
yields a spreadsheet with exactly one data row per entry plus one header
row, the header being exactly the schema's column names. -/
theorem C7_export_header_and_row_count (today db : String) (fs : FS) (t : Table)
    (subs : List Submission) (hfs : fsLookup fs db = some ⟨some t⟩) :
    ∃ fs2 es, add_all today db subs fs = .ok fs2 ∧
      (load_data fs2 db).1 = .ok es ∧
      es.length = t.rows.length + subs.length ∧
      (export_data es).length = es.length + 1 ∧
      (export_data es).head? = some (work_columns.map Cell.str) := by
  obtain ⟨fs2, t2, h1, h2, h3⟩ := add_all_of_table today db subs fs t hfs
  refine ⟨fs2, t2.rows, h1, ?_, h3, ?_, rfl⟩
  · rw [load_data_of_table fs2 db _ t2 h2 rfl]
  · simp [export_data]

/-- C10: with every stored id bounded by the AUTOINCREMENT sequence, an
insert assigns a fresh id strictly greater than every stored id, advances
the sequence, and preserves the bound; `clear_data` deletes the rows but
keeps the sequence, so the insert after a clear receives id `seq + 1`,
strictly greater than every id ever assigned in the store. -/
theorem C10_autoincrement_ids_never_reused (today : String) (fs : FS)
    (db cn cl wv rq nt : String) (hw : ℚ) (file : DBFile) (t : Table)
    (hfile : fsLookup fs db = some file) (htab : file.table = some t)
    (hinv : idsBounded t) :
    (∀ e ∈ t.rows, e.id < max t.seq (maxRowId t.rows) + 1) ∧
    t.seq < max t.seq (maxRowId t.rows) + 1 ∧
    add_entry today fs db cn cl wv rq nt hw =
      .ok (fsSet fs db ⟨some ⟨t.rows ++
        [⟨max t.seq (maxRowId t.rows) + 1, today, cn, cl, wv, rq, nt, hw⟩],
        max t.seq (maxRowId t.rows) + 1⟩⟩) ∧
    idsBounded ⟨t.rows ++
        [⟨max t.seq (maxRowId t.rows) + 1, today, cn, cl, wv, rq, nt, hw⟩],
        max t.seq (maxRowId t.rows) + 1⟩ ∧
    fsLookup (clear_data fs db).2 db = some ⟨some ⟨[], t.seq⟩⟩ ∧
    add_entry today (clear_data fs db).2 db cn cl wv rq nt hw =
      .ok (fsSet (clear_data fs db).2 db
        ⟨some ⟨[⟨t.seq + 1, today, cn, cl, wv, rq, nt, hw⟩], t.seq + 1⟩⟩) ∧
    (∀ e ∈ t.rows, e.id < t.seq + 1) := by
  have hboundOld : ∀ e ∈ t.rows, e.id < max t.seq (maxRowId t.rows) + 1 := by
    intro e he
    exact Nat.lt_succ_of_le (le_trans (hinv e he) (le_max_left _ _))
  refine ⟨hboundOld, Nat.lt_succ_of_le (le_max_left _ _),
    add_entry_of_table today fs db cn cl wv rq nt hw file t hfile htab, ?_, ?_, ?_, ?_⟩
  · intro e he
    rcases List.mem_append.mp he with h | h
    · exact le_of_lt (hboundOld e h)
    · rcases List.mem_singleton.mp h with rfl
      exact le_refl _
  · rw [clear_data_of_table fs db file t hfile htab]
    exact fsLookup_fsSet_self fs db _
  · rw [clear_data_of_table fs db file t hfile htab]
    have h := add_entry_of_table today (fsSet fs db ⟨some ⟨[], t.seq⟩⟩) db cn cl wv rq nt hw
      ⟨some ⟨[], t.seq⟩⟩ ⟨[], t.seq⟩ (fsLookup_fsSet_self fs db _) rfl
    simpa [maxRowId] using h
  · intro e he
    exact Nat.lt_succ_of_le (hinv e he)

/-- C9: the nested "Confirm Delete" control is logically inert: whatever
single widget event triggers a script run, the inner branch guarding
`os.remove` never fires. -/
theorem C9_confirm_delete_inert (clicked : Option String) :
    delete_confirm_fires clicked = false := by
  unfold delete_confirm_fires button_pressed
  cases clicked with
  | none => simp
  | some s =>
    by_cases h : s = "Delete Current Database"
    · subst h
      simp
    · simp [h]

/-! ## Concrete witnesses -/

/-- Witness for C1: a concrete valid submission into a fresh store. -/
theorem C1_valid_submission_adds_entry_witness :
    ∃ fs2 e, entry_form_submit "2026-10-12" emptyFS "w.db" "Acme" "NYC" "Install"
        "Router" "" 2 = .ok (.success, fs2) ∧
      (load_data emptyFS "w.db").1 = .ok ([] : List Entry) ∧
      (load_data fs2 "w.db").1 = .ok (([] : List Entry) ++ [e]) ∧
      (([] : List Entry) ++ [e]).length = ([] : List Entry).length + 1 ∧
      e.client_name = "Acme" ∧ e.client_location = "NYC" ∧ e.work_of_visit = "Install" ∧
      e.requirements = "Router" ∧ e.note = "" ∧ e.hours_worked = 2 ∧ e.date = "2026-10-12" :=
  C1_valid_submission_adds_entry "2026-10-12" emptyFS "w.db" "Acme" "NYC" "Install"
    "Router" "" 2 ⟨some ⟨[], 0⟩⟩ ⟨[], 0⟩ rfl rfl (by decide) (by decide) (by decide)
    (by decide) (by decide)

/-- Witness for C2: a concrete submission with an empty client name. -/
theorem C2_invalid_submission_rejected_witness :
    entry_form_submit "2026-10-12" sampleFS "w.db" "" "NYC" "Install" "Router" "" 2 =
      .ok (.validationError, sampleFS) :=
  C2_invalid_submission_rejected "2026-10-12" sampleFS "w.db" "" "NYC" "Install"
    "Router" "" 2 (Or.inl rfl)

/-- Witness for C3: clearing the sample store. -/
theorem C3_clear_keeps_store_and_schema_witness :
    (clear_data sampleFS "w.db").1 = .ok () ∧
    fsLookup (clear_data sampleFS "w.db").2 "w.db" = some ⟨some ⟨[], 1⟩⟩ ∧
    (load_data (clear_data sampleFS "w.db").2 "w.db").1 = .ok [] ∧
    (∀ k, k ≠ "w.db" → fsLookup (clear_data sampleFS "w.db").2 k = fsLookup sampleFS k) ∧
    (∃ fs3, add_entry "2026-10-12" (clear_data sampleFS "w.db").2 "w.db" "B" "C" "D" "E"
      "" 3 = .ok fs3) :=
  C3_clear_keeps_store_and_schema sampleFS "w.db" ⟨some ⟨[sampleEntry], 1⟩⟩
    ⟨[sampleEntry], 1⟩ rfl rfl "2026-10-12" "B" "C" "D" "E" "" 3

/-- Witness for C4: creating a database named `w` when `w.db` is known. -/
theorem C4_create_existing_fails_witness :
    "w" ≠ "" ∧ withDbExt "w" ∈ ["w.db"] ∧
    create_database_handler sampleFS ["w.db"] "w" = (.alreadyExists, sampleFS, ["w.db"]) :=
  ⟨by decide, by decide, C4_create_existing_fails sampleFS ["w.db"] "w" (by decide) (by decide)⟩

/-- Witness for C5: `init_db` on the sample store. -/
theorem C5_init_db_idempotent_witness :
    init_db (init_db sampleFS "w") "w" = init_db sampleFS "w" ∧
    init_db sampleFS "w" = sampleFS :=
  ⟨(C5_init_db_idempotent sampleFS "w").1,
   ((C5_init_db_idempotent sampleFS "w").2 ⟨some ⟨[sampleEntry], 1⟩⟩ ⟨[sampleEntry], 1⟩
     (by decide) rfl).1⟩

/-- Witness for C6: a concrete successful rename of `w.db` to `x.db`. -/
theorem C6_rename_database_listing_witness :
    rename_database sampleFS "w.db" "x" =
      (true, fsSet (fsRemove sampleFS "w.db") (withDbExt "x") ⟨some ⟨[sampleEntry], 1⟩⟩) ∧
    withDbExt "x" ∈
      list_databases (fsSet (fsRemove sampleFS "w.db") (withDbExt "x")
        ⟨some ⟨[sampleEntry], 1⟩⟩) ∧
    "w.db" ∉
      list_databases (fsSet (fsRemove sampleFS "w.db") (withDbExt "x")
        ⟨some ⟨[sampleEntry], 1⟩⟩) :=
  (C6_rename_database_listing sampleFS "w.db" "x").2.2 ⟨some ⟨[sampleEntry], 1⟩⟩ rfl
    (by decide)

/-- Witness for C7: one concrete submission inserted into a fresh store,
then loaded and exported. -/
theorem C7_export_header_and_row_count_witness :
    ∃ fs2 es, add_all "2026-10-12" "w.db" [⟨"Acme", "NYC", "Install", "Router", "", 2⟩]
        emptyFS = .ok fs2 ∧
      (load_data fs2 "w.db").1 = .ok es ∧
      es.length = ([] : List Entry).length + 1 ∧
      (export_data es).length = es.length + 1 ∧
      (export_data es).head? = some (work_columns.map Cell.str) :=
  C7_export_header_and_row_count "2026-10-12" "w.db" emptyFS ⟨[], 0⟩
    [⟨"Acme", "NYC", "Install", "Router", "", 2⟩] rfl

/-- Witness for C8: exporting the sample rows. -/
theorem C8_export_deterministic_pure_witness :
    export_data [sampleEntry] = export_data [sampleEntry] ∧
    (export_step sampleFS [sampleEntry]).1 = sampleFS ∧
    (export_step sampleFS [sampleEntry]).2 = export_data [sampleEntry] :=
  C8_export_deterministic_pure sampleFS [sampleEntry] [sampleEntry] rfl

/-- Witness for C10: inserting into and clearing the sample store. -/
theorem C10_autoincrement_ids_never_reused_witness :
    (∀ e ∈ [sampleEntry], e.id < max 1 (maxRowId [sampleEntry]) + 1) ∧
    1 < max 1 (maxRowId [sampleEntry]) + 1 ∧
    add_entry "2026-10-12" sampleFS "w.db" "B" "C" "D" "E" "" 3 =
      .ok (fsSet sampleFS "w.db" ⟨some ⟨[sampleEntry] ++
        [⟨max 1 (maxRowId [sampleEntry]) + 1, "2026-10-12", "B", "C", "D", "E", "", 3⟩],
        max 1 (maxRowId [sampleEntry]) + 1⟩⟩) ∧
    idsBounded ⟨[sampleEntry] ++
        [⟨max 1 (maxRowId [sampleEntry]) + 1, "2026-10-12", "B", "C", "D", "E", "", 3⟩],
        max 1 (maxRowId [sampleEntry]) + 1⟩ ∧
    fsLookup (clear_data sampleFS "w.db").2 "w.db" = some ⟨some ⟨[], 1⟩⟩ ∧
    add_entry "2026-10-12" (clear_data sampleFS "w.db").2 "w.db" "B" "C" "D" "E" "" 3 =
      .ok (fsSet (clear_data sampleFS "w.db").2 "w.db"
        ⟨some ⟨[⟨1 + 1, "2026-10-12", "B", "C", "D", "E", "", 3⟩], 1 + 1⟩⟩) ∧
    (∀ e ∈ [sampleEntry], e.id < 1 + 1) :=
  C10_autoincrement_ids_never_reused "2026-10-12" sampleFS "w.db" "B" "C" "D" "E" "" 3
    ⟨some ⟨[sampleEntry], 1⟩⟩ ⟨[sampleEntry], 1⟩ rfl rfl
    (by intro e he; rcases List.mem_singleton.mp he with rfl; decide)

end WorkTracker
